import Mathlib

/-!
Verification development for the `ask_rs` terminal client (src/main.rs).

The embedding is shallow: strings are lists of characters, the HTTPS round
trip, the approval dialog, the free-text comment dialog and the subshell
execution are oracles supplied through an environment record, and the
transcript file is carried explicitly in the state.  Panicking paths of the
Rust code (`unwrap`, `panic!`) are modelled as an `Except` error value, so a
returned `Except.error` means the process aborts.
-/

/-- Strings are modelled as lists of characters; for the ASCII data handled
here this agrees with Rust byte/char indexing at every occurrence boundary. -/
abbrev Str := List Char

/-- One conversational turn (struct Message, main.rs lines 24-28). -/
structure Message where
  role : Str
  content : Str
deriving DecidableEq

/-- One session (struct ConversationState, main.rs lines 30-34). -/
structure ConversationState where
  model : Str
  messages : List Message
deriving DecidableEq

/-- Rust str::find — the index of the first occurrence of needle in hay,
none when needle does not occur. -/
def findSub : Str → Str → Option Nat
  | [], needle => if needle.isPrefixOf ([] : Str) then some 0 else none
  | a :: t, needle =>
    if needle.isPrefixOf (a :: t) then some 0
    else (findSub t needle).map (· + 1)

/-- Rust str::contains — needle occurs somewhere in hay. -/
def containsSub (hay needle : Str) : Bool := (findSub hay needle).isSome

/-- Fuel-driven worker for trimStartMatches; the fuel is the length of the
string, enough because each round removes a nonempty prefix. -/
def trimStartMatchesAux : Nat → Str → Str → Str
  | 0, _, s => s
  | fuel + 1, pat, s =>
    if pat ≠ [] ∧ pat.isPrefixOf s then trimStartMatchesAux fuel pat (s.drop pat.length)
    else s

/-- Rust str::trim_start_matches — repeatedly removes pat from the front of s. -/
def trimStartMatches (pat s : Str) : Str := trimStartMatchesAux s.length pat s

/-- Whitespace test used by Rust str::trim (the inputs handled here are
ASCII, where Unicode White_Space reduces to these characters). -/
def isWsChar (c : Char) : Bool := c == ' ' || c == '\t' || c == '\n' || c == '\r'

/-- Rust str::trim — removes leading and trailing whitespace. -/
def trimStr (s : Str) : Str :=
  ((s.dropWhile isWsChar).reverse.dropWhile isWsChar).reverse

/-- Models slice.lines().next().unwrap() on a nonempty slice: the characters
before the first newline (main.rs line 345). -/
def firstLine (s : Str) : Str := s.takeWhile (fun c => !(c == '\n'))

/-- Completion marker literal "DONE" (main.rs lines 322, 337). -/
def doneMarker : Str := "DONE".data

/-- Directive marker literal "COMMAND:" (main.rs lines 328, 344-346). -/
def commandMarker : Str := "COMMAND:".data

/-- Command text recovered once the directive marker was found at index i:
the rest of that line, with the marker prefix and surrounding whitespace
stripped (main.rs lines 345-346). -/
def extractAt (response : Str) (i : Nat) : Str :=
  trimStr (trimStartMatches commandMarker (firstLine (response.drop i)))

/-- Directive extraction (main.rs lines 344-346): locate the first
occurrence of the marker and take the remainder of that line, trimmed. -/
def extract_command (response : Str) : Option Str :=
  (findSub response commandMarker).map (extractAt response)

/-- Outcome of one HTTPS round trip to the completion endpoint, as seen by
perform_request (main.rs lines 232-250): a parsed list of candidate
messages, a transport-level send error, or a body that fails to decode. -/
inductive NetOutcome
  | reply (choices : List Message)
  | transportErr
  | malformed
deriving DecidableEq

/-- Outcome of invoking sh -c command via .output() (main.rs line 357). -/
inductive ExecOutcome
  | output (stdout stderr : Str)
  | spawnErr (e : Str)
deriving DecidableEq

/-- Process-aborting panics of the modelled paths. -/
inductive Abort
  | malformedResponse
  | emptyChoices
  | emptyMessages
deriving DecidableEq

/-- In-memory conversation together with the persisted transcript file
(none while the file does not exist). -/
structure SysState where
  convo : ConversationState
  transcript : Option ConversationState
deriving DecidableEq

/-- User turn pushed by perform_request (main.rs lines 216-219). -/
def userMsg (input : Str) : Message :=
  { role := "user".data, content := input }

/-- process_response (main.rs lines 253-271): panic on an empty choices
list, otherwise append the first candidate and overwrite the transcript
file with the resulting conversation. -/
def process_response (choices : List Message) (s : SysState) :
    Except Abort SysState :=
  match choices with
  | [] => Except.error Abort.emptyChoices
  | choice :: _ =>
    let convo : ConversationState :=
      { s.convo with messages := s.convo.messages ++ [choice] }
    Except.ok { convo := convo, transcript := some convo }

/-- perform_request (main.rs lines 210-251): append the user turn, perform
the round trip (abstracted into the NetOutcome oracle — the request body of
lines 221-230 does not influence any property below), then either process
the response, abort on a malformed body, or print the transport error and
return with the conversation holding only the new user turn. -/
def perform_request (net : NetOutcome) (input : Str) (s : SysState) :
    Except Abort SysState :=
  let s' : SysState :=
    { s with convo := { s.convo with messages := s.convo.messages ++ [userMsg input] } }
  match net with
  | NetOutcome.reply choices => process_response choices s'
  | NetOutcome.transportErr => Except.ok s'
  | NetOutcome.malformed => Except.error Abort.malformedResponse

/-- Model identifier constant (main.rs line 13). -/
def MODEL : Str := "o1-mini".data

/-- Priming instruction of a fresh conversation (main.rs line 103). -/
def primingContent : Str :=
  ("You are ChatConcise, a very advanced LLM designed for experienced users. As ChatConcise you oblige to adhere to the following directives UNLESS overridden by the user:\nBe concise, proactive, helpful and efficient. Do not say anything more than what needed, but also, DON\x27T BE LAZY. Provide ONLY code when an implementation is needed. DO NOT USE MARKDOWN.").data

/-- Fresh-conversation initialisation (main.rs lines 96-109): one priming
message whose role is user for models whose identifier contains "o1-" and
system otherwise. -/
def initializeConvo (model : Str) : ConversationState :=
  { model := model,
    messages :=
      [ { role := if containsSub model ("o1-".data) then "user".data else "system".data,
          content := primingContent } ] }

/-- Result of fs::remove_file as seen by clear_current_convo. -/
inductive RemoveResult
  | ok
  | err (e : Str)
deriving DecidableEq

/-- Observable outcome of clear_current_convo: the printed line and whether
the process aborted. -/
structure ClearOutput where
  printed : Str
  aborted : Bool
deriving DecidableEq

/-- clear_current_convo (main.rs lines 273-278): print a success line, or
print the removal error; neither branch aborts. -/
def clear_current_convo : RemoveResult → ClearOutput
  | RemoveResult.ok => { printed := "Conversation cleared.".data, aborted := false }
  | RemoveResult.err e =>
    { printed := "Error clearing conversation: ".data ++ e, aborted := false }

/-- Environment of oracles for the agent loop: the k-th completion round
trip, the k-th approval dialog answer (dialoguer Confirm, default false),
the k-th rejection comment (dialoguer Input, default empty) and the k-th
subshell execution outcome. -/
structure Env where
  net : Nat → NetOutcome
  confirm : Nat → Bool
  comment : Nat → Str
  exec : Nat → ExecOutcome

/-- Observable actions of the agent loop, in chronological order:
a completion call with its input text, the approval prompt showing a
command, the invocation of sh -c on a command, and the final
"Task completed!" line. -/
inductive Event
  | completionCall (input : Str)
  | approvalPrompt (command : Str)
  | execCommand (command : Str)
  | printTaskCompleted
deriving DecidableEq

/-- Agent-loop state: the conversation plus transcript, counters of how
many oracle answers have been consumed, and the event log. -/
structure LoopSt where
  sys : SysState
  netCount : Nat
  approvalCount : Nat
  commentCount : Nat
  execCount : Nat
  events : List Event
deriving DecidableEq

/-- Appends one event to the log. -/
def logEvent (e : Event) (st : LoopSt) : LoopSt :=
  { st with events := st.events ++ [e] }

/-- perform_request as invoked from inside the loop: consumes the next
net-oracle answer and records the completion call. -/
def loopRequest (env : Env) (input : Str) (st : LoopSt) : Except Abort LoopSt :=
  match perform_request (env.net st.netCount) input st.sys with
  | Except.error a => Except.error a
  | Except.ok sys' =>
    Except.ok { st with
      sys := sys'
      netCount := st.netCount + 1
      events := st.events ++ [Event.completionCall input] }

/-- Directive-request prompt (main.rs line 329). -/
def directivePrompt (user_input : Str) : Str :=
  ("Original task: ").data ++ user_input ++
    (". Suggest the next command to run. Format your response as: COMMAND: <command> followed by an explanation. Or say DONE if the task is complete.").data

/-- Rejection feedback turn (main.rs lines 381-384). -/
def rejectionMsg (comment : Str) : Str :=
  ("Command was rejected by user.\nFEEDBACK: ").data ++ comment ++
    ("\n\nPlease suggest an alternative.").data

/-- Captured-output feedback turn (main.rs lines 361-362). -/
def execResultMsg (stdout stderr : Str) : Str :=
  ("Command output:\nstdout:\n").data ++ stdout ++ ("\nstderr:\n").data ++ stderr

/-- Spawn-failure feedback turn (main.rs line 371). -/
def spawnFailMsg (e : Str) : Str := ("Command failed: ").data ++ e

/-- One pass of the loop body of handle_recursive_mode (main.rs lines
316-388).  Sum.inr means the loop broke out (task completed), Sum.inl means
it falls through to the next iteration.  The helper mirrors lines 327-341:
when the latest message carries no directive marker it requests one, and a
completion marker in the fresh reply breaks out of the loop (Sum.inl there
bubbles up as a break). -/
def askDirective (env : Env) (user_input : Str) (st : LoopSt) (response : Str) :
    Except Abort (LoopSt ⊕ (LoopSt × Str)) :=
  if !(containsSub response commandMarker) then
    match loopRequest env (directivePrompt user_input) st with
    | Except.error a => Except.error a
    | Except.ok st' =>
      match st'.sys.convo.messages.getLast? with
      | none => Except.error Abort.emptyMessages
      | some m' =>
        if containsSub m'.content doneMarker then
          Except.ok (Sum.inl (logEvent Event.printTaskCompleted st'))
        else
          Except.ok (Sum.inr (st', m'.content))
  else
    Except.ok (Sum.inr (st, response))

/-- One iteration of handle_recursive_mode (main.rs lines 316-388): check
the latest message for the completion marker, otherwise request a directive
when none is present, extract and confirm the command, then execute it or
send the rejection feedback. -/
def recursive_mode_iter (env : Env) (user_input : Str) (st : LoopSt) :
    Except Abort (LoopSt ⊕ LoopSt) :=
  match st.sys.convo.messages.getLast? with
  | none => Except.error Abort.emptyMessages
  | some last_message =>
    if containsSub last_message.content doneMarker then
      Except.ok (Sum.inr (logEvent Event.printTaskCompleted st))
    else
      match askDirective env user_input st last_message.content with
      | Except.error a => Except.error a
      | Except.ok (Sum.inl stDone) => Except.ok (Sum.inr stDone)
      | Except.ok (Sum.inr (st1, response)) =>
        match findSub response commandMarker with
        | none => Except.ok (Sum.inl st1)
        | some cmd_start =>
          let command := extractAt response cmd_start
          let confirmAnswer := env.confirm st1.approvalCount
          let st2 : LoopSt :=
            { logEvent (Event.approvalPrompt command) st1 with
                approvalCount := st1.approvalCount + 1 }
          if confirmAnswer then
            let exres := env.exec st2.execCount
            let st3 : LoopSt :=
              { logEvent (Event.execCommand command) st2 with
                  execCount := st2.execCount + 1 }
            let feedback :=
              match exres with
              | ExecOutcome.output o e => execResultMsg o e
              | ExecOutcome.spawnErr e => spawnFailMsg e
            match loopRequest env feedback st3 with
            | Except.error a => Except.error a
            | Except.ok st4 => Except.ok (Sum.inl st4)
          else
            let comment := env.comment st2.commentCount
            let st3 : LoopSt := { st2 with commentCount := st2.commentCount + 1 }
            match loopRequest env (rejectionMsg comment) st3 with
            | Except.error a => Except.error a
            | Except.ok st4 => Except.ok (Sum.inl st4)

/-- handle_recursive_mode, observed for a bounded number of iterations:
ok (true, st) means the loop broke out within the bound, ok (false, st)
means it is still running after the bound many iterations, error means the
process aborted. -/
def handle_recursive_mode (env : Env) (user_input : Str) :
    Nat → LoopSt → Except Abort (Bool × LoopSt)
  | 0, st => Except.ok (false, st)
  | fuel + 1, st =>
    match recursive_mode_iter env user_input st with
    | Except.error a => Except.error a
    | Except.ok (Sum.inr stDone) => Except.ok (true, stDone)
    | Except.ok (Sum.inl st') => handle_recursive_mode env user_input fuel st'

/-- Whether a bounded run broke out of the loop: none when it aborted. -/
def haltedOf : Except Abort (Bool × LoopSt) → Option Bool
  | Except.ok (b, _) => some b
  | Except.error _ => none

/-- Final state of a bounded run, none when it aborted. -/
def stateOf : Except Abort (Bool × LoopSt) → Option LoopSt
  | Except.ok (_, st) => some st
  | Except.error _ => none

/-- Completion-call events among a log. -/
def isCall : Event → Bool
  | Event.completionCall _ => true
  | _ => false

deriving instance DecidableEq for Except

set_option maxRecDepth 10000

/-- A nonempty find result survives prepending text to the haystack. -/
lemma findSub_isSome_append (s t n : Str) (h : (findSub t n).isSome = true) :
    (findSub (s ++ t) n).isSome = true := by
  induction s with
  | nil => simpa using h
  | cons a s ih =>
    show (findSub (a :: (s ++ t)) n).isSome = true
    by_cases hp : n.isPrefixOf (a :: (s ++ t))
    · simp [findSub, hp]
    · simp [findSub, hp]
      exact ih

/-- Containment survives prepending text to the haystack. -/
lemma containsSub_append_left (s t n : Str) (h : containsSub t n = true) :
    containsSub (s ++ t) n = true :=
  findSub_isSome_append s t n h

/-- A prefix of the haystack is contained in it. -/
lemma containsSub_of_isPrefixOf (t n : Str) (h : n.isPrefixOf t = true) :
    containsSub t n = true := by
  cases t <;> simp [containsSub, findSub, h]

/-- A list is a prefix of itself followed by anything. -/
lemma isPrefixOf_self_append (c t : Str) : c.isPrefixOf (c ++ t) = true := by
  induction c with
  | nil => simp [List.isPrefixOf]
  | cons a c ih => simp [List.isPrefixOf, ih]

/-- A false containment test forces an empty find result. -/
lemma findSub_eq_none (r n : Str) (h : containsSub r n = false) :
    findSub r n = none := by
  unfold containsSub at h
  cases hf : findSub r n
  · rfl
  · simp [hf] at h

/-- A positive find result forces a true containment test. -/
lemma containsSub_of_findSub (r n : Str) (j : Nat) (h : findSub r n = some j) :
    containsSub r n = true := by
  simp [containsSub, h]

/-- The directive-request prompt contains the completion marker: its tail
sentence "Or say DONE if the task is complete." carries the literal DONE. -/
lemma prompt_contains_done (u : Str) :
    containsSub (directivePrompt u) doneMarker = true := by
  unfold directivePrompt
  exact containsSub_append_left _ _ _ (by decide)

/-- The rejection feedback turn contains the rejection comment verbatim. -/
lemma rejection_contains_comment (c : Str) :
    containsSub (rejectionMsg c) c = true := by
  unfold rejectionMsg
  rw [List.append_assoc]
  exact containsSub_append_left _ _ _
    (containsSub_of_isPrefixOf _ _ (isPrefixOf_self_append c _))


def afterRequestOk (st : LoopSt) (input : Str) (a : Message) : LoopSt :=
  { st with
    sys :=
      { convo := { st.sys.convo with messages := st.sys.convo.messages ++ [userMsg input, a] }
        transcript := some { st.sys.convo with messages := st.sys.convo.messages ++ [userMsg input, a] } }
    netCount := st.netCount + 1
    events := st.events ++ [Event.completionCall input] }

def afterRequestFail (st : LoopSt) (input : Str) : LoopSt :=
  { st with
    sys := { st.sys with
      convo := { st.sys.convo with messages := st.sys.convo.messages ++ [userMsg input] } }
    netCount := st.netCount + 1
    events := st.events ++ [Event.completionCall input] }

lemma loopRequest_reply (env : Env) (input : Str) (st : LoopSt) (a : Message)
    (rest : List Message) (h : env.net st.netCount = NetOutcome.reply (a :: rest)) :
    loopRequest env input st = Except.ok (afterRequestOk st input a) := by
  simp [loopRequest, perform_request, process_response, h, afterRequestOk]

lemma loopRequest_transport (env : Env) (input : Str) (st : LoopSt)
    (h : env.net st.netCount = NetOutcome.transportErr) :
    loopRequest env input st = Except.ok (afterRequestFail st input) := by
  simp [loopRequest, perform_request, h, afterRequestFail]

lemma iter_entry_done (env : Env) (u : Str) (st : LoopSt) (m : Message)
    (h1 : st.sys.convo.messages.getLast? = some m)
    (h2 : containsSub m.content doneMarker = true) :
    recursive_mode_iter env u st = Except.ok (Sum.inr (logEvent Event.printTaskCompleted st)) := by
  simp [recursive_mode_iter, h1, h2]

lemma iter_ask_done (env : Env) (u : Str) (st : LoopSt) (m : Message) (a : Message)
    (rest : List Message)
    (h1 : st.sys.convo.messages.getLast? = some m)
    (h2 : containsSub m.content doneMarker = false)
    (h3 : containsSub m.content commandMarker = false)
    (hnet : env.net st.netCount = NetOutcome.reply (a :: rest))
    (h4 : containsSub a.content doneMarker = true) :
    recursive_mode_iter env u st =
      Except.ok (Sum.inr (logEvent Event.printTaskCompleted
        (afterRequestOk st (directivePrompt u) a))) := by
  have hreq := loopRequest_reply env (directivePrompt u) st a rest hnet
  have hlast : (afterRequestOk st (directivePrompt u) a).sys.convo.messages.getLast? = some a := by
    simp [afterRequestOk]
  simp [recursive_mode_iter, h1, h2, askDirective, h3, hreq, hlast, h4]

lemma iter_ask_transport (env : Env) (u : Str) (st : LoopSt) (m : Message)
    (h1 : st.sys.convo.messages.getLast? = some m)
    (h2 : containsSub m.content doneMarker = false)
    (h3 : containsSub m.content commandMarker = false)
    (hnet : env.net st.netCount = NetOutcome.transportErr) :
    recursive_mode_iter env u st =
      Except.ok (Sum.inr (logEvent Event.printTaskCompleted
        (afterRequestFail st (directivePrompt u)))) := by
  have hreq := loopRequest_transport env (directivePrompt u) st hnet
  have hlast : (afterRequestFail st (directivePrompt u)).sys.convo.messages.getLast? =
      some (userMsg (directivePrompt u)) := by
    simp [afterRequestFail]
  simp [recursive_mode_iter, h1, h2, askDirective, h3, hreq, hlast, userMsg,
    prompt_contains_done u]

lemma iter_ask_nocmd (env : Env) (u : Str) (st : LoopSt) (m : Message) (a : Message)
    (rest : List Message)
    (h1 : st.sys.convo.messages.getLast? = some m)
    (h2 : containsSub m.content doneMarker = false)
    (h3 : containsSub m.content commandMarker = false)
    (hnet : env.net st.netCount = NetOutcome.reply (a :: rest))
    (h4 : containsSub a.content doneMarker = false)
    (h5 : containsSub a.content commandMarker = false) :
    recursive_mode_iter env u st =
      Except.ok (Sum.inl (afterRequestOk st (directivePrompt u) a)) := by
  have hreq := loopRequest_reply env (directivePrompt u) st a rest hnet
  have hlast : (afterRequestOk st (directivePrompt u) a).sys.convo.messages.getLast? = some a := by
    simp [afterRequestOk]
  simp [recursive_mode_iter, h1, h2, askDirective, h3, hreq, hlast, h4,
    findSub_eq_none _ _ h5]

def rejectState (st : LoopSt) (command : Str) : LoopSt :=
  { st with
    approvalCount := st.approvalCount + 1
    commentCount := st.commentCount + 1
    events := st.events ++ [Event.approvalPrompt command] }

lemma iter_reject_reply (env : Env) (u : Str) (st : LoopSt) (m : Message) (j : Nat)
    (a : Message) (rest : List Message)
    (h1 : st.sys.convo.messages.getLast? = some m)
    (h2 : containsSub m.content doneMarker = false)
    (h3 : findSub m.content commandMarker = some j)
    (h4 : env.confirm st.approvalCount = false)
    (hnet : env.net st.netCount = NetOutcome.reply (a :: rest)) :
    recursive_mode_iter env u st =
      Except.ok (Sum.inl (afterRequestOk (rejectState st (extractAt m.content j))
        (rejectionMsg (env.comment st.commentCount)) a)) := by
  have hc : containsSub m.content commandMarker = true :=
    containsSub_of_findSub _ _ j h3
  have hreq := loopRequest_reply env (rejectionMsg (env.comment st.commentCount))
    (rejectState st (extractAt m.content j)) a rest (by simpa [rejectState] using hnet)
  simp [recursive_mode_iter, h1, h2, askDirective, hc, h3, h4, rejectState, logEvent] at hreq ⊢
  simp [hreq]

lemma iter_reject_transport (env : Env) (u : Str) (st : LoopSt) (m : Message) (j : Nat)
    (h1 : st.sys.convo.messages.getLast? = some m)
    (h2 : containsSub m.content doneMarker = false)
    (h3 : findSub m.content commandMarker = some j)
    (h4 : env.confirm st.approvalCount = false)
    (hnet : env.net st.netCount = NetOutcome.transportErr) :
    recursive_mode_iter env u st =
      Except.ok (Sum.inl (afterRequestFail (rejectState st (extractAt m.content j))
        (rejectionMsg (env.comment st.commentCount)))) := by
  have hc : containsSub m.content commandMarker = true :=
    containsSub_of_findSub _ _ j h3
  have hreq := loopRequest_transport env (rejectionMsg (env.comment st.commentCount))
    (rejectState st (extractAt m.content j)) (by simpa [rejectState] using hnet)
  simp [recursive_mode_iter, h1, h2, askDirective, hc, h3, h4, rejectState, logEvent] at hreq ⊢
  simp [hreq]

lemma run_nomarkers (env : Env) (u : Str) (n : Nat) :
    ∀ (st : LoopSt) (m : Message),
      st.sys.convo.messages.getLast? = some m →
      containsSub m.content doneMarker = false →
      containsSub m.content commandMarker = false →
      (∀ k, k < n → ∃ a rest, env.net (st.netCount + k) = NetOutcome.reply (a :: rest) ∧
        containsSub a.content doneMarker = false ∧
        containsSub a.content commandMarker = false) →
      ∃ st', handle_recursive_mode env u n st = Except.ok (false, st') ∧
        st'.netCount = st.netCount + n ∧
        st'.approvalCount = st.approvalCount ∧
        st'.execCount = st.execCount ∧
        st'.events = st.events ++ List.replicate n (Event.completionCall (directivePrompt u)) := by
  induction n with
  | zero =>
    intro st m h1 h2 h3 hnet
    exact ⟨st, rfl, rfl, rfl, rfl, by simp⟩
  | succ n ih =>
    intro st m h1 h2 h3 hnet
    obtain ⟨a, rest, hnet0, hda, hca⟩ := hnet 0 (Nat.succ_pos n)
    rw [Nat.add_zero] at hnet0
    have hstep := iter_ask_nocmd env u st m a rest h1 h2 h3 hnet0 hda hca
    have hlast : (afterRequestOk st (directivePrompt u) a).sys.convo.messages.getLast? =
        some a := by simp [afterRequestOk]
    have hshift : ∀ k, k < n →
        ∃ a2 rest2, env.net ((afterRequestOk st (directivePrompt u) a).netCount + k) =
            NetOutcome.reply (a2 :: rest2) ∧
          containsSub a2.content doneMarker = false ∧
          containsSub a2.content commandMarker = false := by
      intro k hk
      obtain ⟨a2, rest2, h2net, hd2, hc2⟩ := hnet (k + 1) (by omega)
      refine ⟨a2, rest2, ?_, hd2, hc2⟩
      have hidx : (afterRequestOk st (directivePrompt u) a).netCount + k =
          st.netCount + (k + 1) := by
        simp [afterRequestOk]; omega
      rw [hidx]; exact h2net
    obtain ⟨st', hrun, hn, ha, he, hev⟩ :=
      ih (afterRequestOk st (directivePrompt u) a) a hlast hda hca hshift
    refine ⟨st', ?_, ?_, ?_, ?_, ?_⟩
    · show handle_recursive_mode env u (n + 1) st = Except.ok (false, st')
      simp [handle_recursive_mode, hstep, hrun]
    · rw [hn]; simp [afterRequestOk]; try omega
    · rw [ha]; simp [afterRequestOk]
    · rw [he]; simp [afterRequestOk]
    · rw [hev]; simp [afterRequestOk, List.replicate_succ, List.append_assoc]

/-- C1: in agent-loop mode a completion marker in the latest message makes
the loop halt at once, appending only the "Task completed!" event — no
approval prompt is shown, no oracle consumed, no command run, regardless of
a directive marker also being present.  The first conjunct is the loop-entry
check (main.rs line 322), the second the re-check right after a fresh reply
arrives (line 337); replies fed back after an execution or a rejection meet
the entry check of the next iteration before any approval step. -/
theorem done_marker_halts_before_approval :
    (∀ (env : Env) (u : Str) (st : LoopSt) (m : Message),
      st.sys.convo.messages.getLast? = some m →
      containsSub m.content doneMarker = true →
      recursive_mode_iter env u st =
        Except.ok (Sum.inr (logEvent Event.printTaskCompleted st))) ∧
    (∀ (env : Env) (u : Str) (st : LoopSt) (m : Message) (a : Message)
      (rest : List Message),
      st.sys.convo.messages.getLast? = some m →
      containsSub m.content doneMarker = false →
      containsSub m.content commandMarker = false →
      env.net st.netCount = NetOutcome.reply (a :: rest) →
      containsSub a.content doneMarker = true →
      recursive_mode_iter env u st =
        Except.ok (Sum.inr (logEvent Event.printTaskCompleted
          (afterRequestOk st (directivePrompt u) a)))) :=
  ⟨iter_entry_done, iter_ask_done⟩

/-- Fresh assistant reply carrying both markers, for the C1 witness. -/
def aW1 : Message :=
  { role := "assistant".data, content := ("DONE, though COMMAND: rm -rf was considered").data }

/-- Oracle environment for the C1 witness. -/
def envW1 : Env :=
  { net := fun _ => NetOutcome.reply [aW1]
    confirm := fun _ => false
    comment := fun _ => []
    exec := fun _ => ExecOutcome.spawnErr [] }

/-- Loop state whose latest message carries both markers, for the C1 witness. -/
def stW1 : LoopSt :=
  { sys :=
      { convo :=
          { model := MODEL
            messages := [{ role := "assistant".data,
                           content := ("All DONE here, COMMAND: ignored").data }] }
        transcript := none }
    netCount := 0, approvalCount := 0, commentCount := 0, execCount := 0, events := [] }

/-- Loop state whose latest message carries no marker, for the C1 witness. -/
def stW1b : LoopSt :=
  { sys :=
      { convo :=
          { model := MODEL
            messages := [{ role := "assistant".data, content := ("hello").data }] }
        transcript := none }
    netCount := 0, approvalCount := 0, commentCount := 0, execCount := 0, events := [] }

/-- Witness for C1 at concrete states: both the entry check and the
post-reply check halt the loop even though a directive marker is present. -/
theorem done_marker_halts_before_approval_witness :
    recursive_mode_iter envW1 ("t".data) stW1 =
      Except.ok (Sum.inr (logEvent Event.printTaskCompleted stW1)) ∧
    recursive_mode_iter envW1 ("t".data) stW1b =
      Except.ok (Sum.inr (logEvent Event.printTaskCompleted
        (afterRequestOk stW1b (directivePrompt ("t".data)) aW1))) :=
  ⟨done_marker_halts_before_approval.1 envW1 ("t".data) stW1 _ rfl (by decide),
   done_marker_halts_before_approval.2 envW1 ("t".data) stW1b _ aW1 [] rfl
     (by decide) (by decide) rfl (by decide)⟩

/-- Oracle environment for the C2 evaluation (the network is down). -/
def envC2 : Env :=
  { net := fun _ => NetOutcome.transportErr
    confirm := fun _ => false
    comment := fun _ => []
    exec := fun _ => ExecOutcome.spawnErr [] }

/-- Conversation as left by a transport-failed directive request: the
latest message is the loop's own user-role prompt. -/
def stC2 : LoopSt :=
  { sys :=
      { convo :=
          { model := MODEL
            messages := [{ role := "assistant".data, content := ("ok").data },
                         userMsg (directivePrompt ("t".data))] }
        transcript := none }
    netCount := 1, approvalCount := 0, commentCount := 0, execCount := 0
    events := [Event.completionCall (directivePrompt ("t".data))] }

/-- C2 evaluated at the failing input: the entry check of
handle_recursive_mode examines messages.last() regardless of role — here a
user-role message (the loop's own prompt), and because that prompt contains
DONE the loop halts on it. -/
theorem entry_check_reads_user_role_message :
    Option.map Message.role stC2.sys.convo.messages.getLast? = some ("user").data ∧
    recursive_mode_iter envC2 ("t".data) stC2 =
      Except.ok (Sum.inr (logEvent Event.printTaskCompleted stC2)) :=
  ⟨by decide, by decide⟩

/-- Oracle environment for the C3 counterexample: every completion call
fails at the transport level, the user rejects with a comment. -/
def envC3 : Env :=
  { net := fun _ => NetOutcome.transportErr
    confirm := fun _ => false
    comment := fun _ => ("use ls instead").data
    exec := fun _ => ExecOutcome.spawnErr [] }

/-- Loop state whose latest reply proposes a command, for C3. -/
def stC3 : LoopSt :=
  { sys :=
      { convo :=
          { model := MODEL
            messages := [{ role := "assistant".data,
                           content := ("COMMAND: ls\nlists the files").data }] }
        transcript := none }
    netCount := 0, approvalCount := 0, commentCount := 0, execCount := 0, events := [] }

/-- Counterexample to C3 as stated: the rejection-feedback completion call
(call number 0) fails with a transport error, yet the loop does not stop —
after one iteration it is still running, and within two iterations it has
issued a second completion call (the fresh directive request). -/
theorem transport_error_loop_continues_cex :
    envC3.net 0 = NetOutcome.transportErr ∧
    haltedOf (handle_recursive_mode envC3 ("t".data) 1 stC3) = some false ∧
    Option.map (fun s => s.events.countP isCall)
      (stateOf (handle_recursive_mode envC3 ("t".data) 2 stC3)) = some 2 :=
  ⟨rfl, by decide, by decide⟩

/-- C3 amended: a transport-level failure of a completion call leaves the
conversation with exactly the already-appended user turn (no assistant
turn), persists nothing and aborts nothing; in agent-loop mode the failed
request is not retried — when the failing call was the directive request
the loop halts at once (the prompt left as latest message contains DONE),
but when it was the rejection-feedback call the loop continues into the
next iteration instead of stopping. -/
theorem transport_error_behavior :
    (∀ (input : Str) (s : SysState),
      perform_request NetOutcome.transportErr input s =
        Except.ok { s with convo := { s.convo with
          messages := s.convo.messages ++ [userMsg input] } }) ∧
    (∀ (env : Env) (u : Str) (st : LoopSt) (m : Message),
      st.sys.convo.messages.getLast? = some m →
      containsSub m.content doneMarker = false →
      containsSub m.content commandMarker = false →
      env.net st.netCount = NetOutcome.transportErr →
      recursive_mode_iter env u st =
        Except.ok (Sum.inr (logEvent Event.printTaskCompleted
          (afterRequestFail st (directivePrompt u))))) ∧
    (∀ (env : Env) (u : Str) (st : LoopSt) (m : Message) (j : Nat),
      st.sys.convo.messages.getLast? = some m →
      containsSub m.content doneMarker = false →
      findSub m.content commandMarker = some j →
      env.confirm st.approvalCount = false →
      env.net st.netCount = NetOutcome.transportErr →
      recursive_mode_iter env u st =
        Except.ok (Sum.inl (afterRequestFail (rejectState st (extractAt m.content j))
          (rejectionMsg (env.comment st.commentCount))))) :=
  ⟨fun _ _ => rfl, iter_ask_transport, iter_reject_transport⟩

/-- System state for the C3 witness. -/
def sysW3 : SysState :=
  { convo := { model := MODEL
               messages := [{ role := "assistant".data, content := ("hi").data }] }
    transcript := none }

/-- Loop state with a marker-free latest message, for the C3 witness. -/
def stC3b : LoopSt :=
  { sys :=
      { convo :=
          { model := MODEL
            messages := [{ role := "assistant".data, content := ("hello").data }] }
        transcript := none }
    netCount := 0, approvalCount := 0, commentCount := 0, execCount := 0, events := [] }

/-- Witness for the amended C3 at concrete inputs: the un-mutated failed
send, the halting directive-request failure, and the continuing
rejection-feedback failure. -/
theorem transport_error_behavior_witness :
    perform_request NetOutcome.transportErr ("hi there".data) sysW3 =
      Except.ok { sysW3 with convo := { sysW3.convo with
        messages := sysW3.convo.messages ++ [userMsg ("hi there".data)] } } ∧
    recursive_mode_iter envC3 ("t".data) stC3b =
      Except.ok (Sum.inr (logEvent Event.printTaskCompleted
        (afterRequestFail stC3b (directivePrompt ("t".data))))) ∧
    recursive_mode_iter envC3 ("t".data) stC3 =
      Except.ok (Sum.inl (afterRequestFail
        (rejectState stC3 (extractAt ("COMMAND: ls\nlists the files").data 0))
        (rejectionMsg (("use ls instead").data)))) :=
  ⟨transport_error_behavior.1 ("hi there".data) sysW3,
   transport_error_behavior.2.1 envC3 ("t".data) stC3b _ rfl (by decide) (by decide) rfl,
   transport_error_behavior.2.2 envC3 ("t".data) stC3 _ 0 rfl (by decide) rfl rfl rfl⟩

/-- C4: the directive-request prompt itself contains the literal token DONE
("Or say DONE if the task is complete."), so whenever the completion call
for that prompt fails at the transport level — leaving the prompt as the
latest message — the completion-marker check matches the loop's own prompt
and the loop halts reporting "Task completed!" although the remote service
never emitted the marker. -/
theorem prompt_self_done_false_completion :
    (∀ u : Str, containsSub (directivePrompt u) doneMarker = true) ∧
    (∀ (env : Env) (u : Str) (st : LoopSt) (m : Message),
      st.sys.convo.messages.getLast? = some m →
      containsSub m.content doneMarker = false →
      containsSub m.content commandMarker = false →
      env.net st.netCount = NetOutcome.transportErr →
      recursive_mode_iter env u st =
        Except.ok (Sum.inr (logEvent Event.printTaskCompleted
          (afterRequestFail st (directivePrompt u))))) :=
  ⟨prompt_contains_done, iter_ask_transport⟩

/-- Oracle environment for the C4 witness (network down, nothing else used). -/
def envC4 : Env :=
  { net := fun _ => NetOutcome.transportErr
    confirm := fun _ => false
    comment := fun _ => []
    exec := fun _ => ExecOutcome.spawnErr [] }

/-- Loop state with a marker-free latest assistant message, for C4. -/
def stC4 : LoopSt :=
  { sys :=
      { convo :=
          { model := MODEL
            messages := [{ role := "assistant".data, content := ("working").data }] }
        transcript := none }
    netCount := 0, approvalCount := 0, commentCount := 0, execCount := 0, events := [] }

/-- Witness for C4: at a concrete task string the prompt contains DONE, and
with the network down the loop halts claiming completion. -/
theorem prompt_self_done_false_completion_witness :
    containsSub (directivePrompt ("fix the build".data)) doneMarker = true ∧
    recursive_mode_iter envC4 ("fix the build".data) stC4 =
      Except.ok (Sum.inr (logEvent Event.printTaskCompleted
        (afterRequestFail stC4 (directivePrompt ("fix the build".data))))) :=
  ⟨prompt_self_done_false_completion.1 ("fix the build".data),
   prompt_self_done_false_completion.2 envC4 ("fix the build".data) stC4 _ rfl
     (by decide) (by decide) rfl⟩

/-- C5: directive extraction takes the first occurrence of the marker, uses
only the remainder of that line, and strips the marker prefix and the
surrounding whitespace; on the spec's example the command is exactly
"ls -la"; a second marker line is ignored, and padding is trimmed. -/
theorem extract_command_first_line_trimmed :
    extract_command (("preamble\nCOMMAND: ls -la\nexplanation").data) =
      some (("ls -la").data) ∧
    extract_command (("a\nCOMMAND: first one\nCOMMAND: second\nrest").data) =
      some (("first one").data) ∧
    extract_command (("intro COMMAND:   padded   \nmore").data) =
      some (("padded").data) :=
  ⟨by decide, by decide, by decide⟩

/-- C6: a successful single-shot request appends exactly the user turn then
the first response candidate, in that order, leaves the existing prefix
unchanged, and persists exactly the resulting message sequence. -/
theorem single_shot_appends_user_then_assistant (s : SysState) (input : Str)
    (choice : Message) (rest : List Message) :
    perform_request (NetOutcome.reply (choice :: rest)) input s =
      Except.ok
        { convo := { s.convo with messages := s.convo.messages ++ [userMsg input, choice] }
          transcript :=
            some { s.convo with messages := s.convo.messages ++ [userMsg input, choice] } } := by
  simp [perform_request, process_response]

/-- C7: when the user rejects a proposed command, no command is executed
(the execution counter and log gain nothing), exactly one new user turn is
appended — the rejection feedback, which contains the free-text comment
verbatim — and exactly one new completion call is triggered before the loop
falls through to the next iteration (Sum.inl).  Stated for both a
successful follow-up call (which also records the assistant reply) and a
transport-failed one. -/
theorem rejection_appends_comment_one_call (env : Env) (u : Str) (st : LoopSt)
    (m : Message) (j : Nat)
    (h1 : st.sys.convo.messages.getLast? = some m)
    (h2 : containsSub m.content doneMarker = false)
    (h3 : findSub m.content commandMarker = some j)
    (h4 : env.confirm st.approvalCount = false) :
    (∀ (a : Message) (rest : List Message),
      env.net st.netCount = NetOutcome.reply (a :: rest) →
      recursive_mode_iter env u st =
        Except.ok (Sum.inl (afterRequestOk (rejectState st (extractAt m.content j))
          (rejectionMsg (env.comment st.commentCount)) a))) ∧
    (env.net st.netCount = NetOutcome.transportErr →
      recursive_mode_iter env u st =
        Except.ok (Sum.inl (afterRequestFail (rejectState st (extractAt m.content j))
          (rejectionMsg (env.comment st.commentCount))))) ∧
    containsSub (rejectionMsg (env.comment st.commentCount))
      (env.comment st.commentCount) = true :=
  ⟨fun a rest hnet => iter_reject_reply env u st m j a rest h1 h2 h3 h4 hnet,
   fun hnet => iter_reject_transport env u st m j h1 h2 h3 h4 hnet,
   rejection_contains_comment _⟩

/-- Assistant reply proposing an alternative, for the C7 witness. -/
def aC7 : Message :=
  { role := "assistant".data, content := ("COMMAND: ls -a\nsafer listing").data }

/-- Oracle environment for the C7 witness: rejection with a comment, then a
successful follow-up call. -/
def envC7 : Env :=
  { net := fun _ => NetOutcome.reply [aC7]
    confirm := fun _ => false
    comment := fun _ => ("too destructive").data
    exec := fun _ => ExecOutcome.spawnErr [] }

/-- Loop state whose latest reply proposes a command, for the C7 witness. -/
def stC7 : LoopSt :=
  { sys :=
      { convo :=
          { model := MODEL
            messages := [{ role := "assistant".data,
                           content := ("COMMAND: rm -rf tmp\ncleans up").data }] }
        transcript := none }
    netCount := 0, approvalCount := 0, commentCount := 0, execCount := 0, events := [] }

/-- Witness for C7 at concrete inputs. -/
theorem rejection_appends_comment_one_call_witness :
    recursive_mode_iter envC7 ("t".data) stC7 =
      Except.ok (Sum.inl (afterRequestOk
        (rejectState stC7 (extractAt ("COMMAND: rm -rf tmp\ncleans up").data 0))
        (rejectionMsg (("too destructive").data)) aC7)) ∧
    containsSub (rejectionMsg (("too destructive").data)) (("too destructive").data) = true :=
  ⟨(rejection_appends_comment_one_call envC7 ("t".data) stC7 _ 0 rfl (by decide) rfl
      rfl).1 aC7 [] rfl,
   (rejection_appends_comment_one_call envC7 ("t".data) stC7 _ 0 rfl (by decide) rfl
      rfl).2.2⟩

/-- C8: a freshly initialised conversation holds exactly one message, whose
role is user when the model identifier contains "o1-" and system otherwise. -/
theorem fresh_state_priming_role (model : Str) :
    (initializeConvo model).messages.length = 1 ∧
    (containsSub model ("o1-".data) = true →
      (initializeConvo model).messages.map Message.role = [("user").data]) ∧
    (containsSub model ("o1-".data) = false →
      (initializeConvo model).messages.map Message.role = [("system").data]) := by
  refine ⟨rfl, fun h => ?_, fun h => ?_⟩ <;> simp [initializeConvo, h]

/-- Witness for C8 at the repository's model constant and at a
non-reasoning model name. -/
theorem fresh_state_priming_role_witness :
    (initializeConvo MODEL).messages.length = 1 ∧
    (initializeConvo MODEL).messages.map Message.role = [("user").data] ∧
    (initializeConvo (("gpt-4o").data)).messages.map Message.role = [("system").data] :=
  ⟨(fresh_state_priming_role MODEL).1,
   (fresh_state_priming_role MODEL).2.1 (by decide),
   (fresh_state_priming_role (("gpt-4o").data)).2.2 (by decide)⟩

/-- Removal error returned by the OS when the transcript file is absent. -/
def missingFileErr : Str := ("No such file or directory (os error 2)").data

/-- Counterexample to C9 as stated: clearing an absent session prints an
error-worded line, not a "nothing to clear"-style soft message (the run
still does not abort). -/
theorem clear_missing_error_message_cex :
    (clear_current_convo (RemoveResult.err missingFileErr)).printed =
      ("Error clearing conversation: No such file or directory (os error 2)").data ∧
    containsSub (clear_current_convo (RemoveResult.err missingFileErr)).printed
      (("nothing to clear").data) = false ∧
    (clear_current_convo (RemoveResult.err missingFileErr)).aborted = false :=
  ⟨by decide, by decide, rfl⟩

/-- C9 amended: clearing a session whose record does not exist does not
abort the process, but it is reported with the error-worded line
"Error clearing conversation: <os error>" rather than a soft
"nothing to clear"-style message. -/
theorem clear_missing_nonfatal_error_line (e : Str) :
    clear_current_convo (RemoveResult.err e) =
      { printed := ("Error clearing conversation: ").data ++ e, aborted := false } :=
  rfl

/-- C10: starting from a latest message holding neither marker, as long as
every fresh reply also holds neither marker the loop neither halts nor
aborts nor touches the approval or execution oracles: each of the n
iterations issues exactly one more directive-request completion call. -/
theorem no_marker_reply_keeps_asking (env : Env) (u : Str) (st : LoopSt)
    (m : Message) (n : Nat)
    (h1 : st.sys.convo.messages.getLast? = some m)
    (h2 : containsSub m.content doneMarker = false)
    (h3 : containsSub m.content commandMarker = false)
    (hnet : ∀ k, k < n → ∃ a rest,
      env.net (st.netCount + k) = NetOutcome.reply (a :: rest) ∧
      containsSub a.content doneMarker = false ∧
      containsSub a.content commandMarker = false) :
    haltedOf (handle_recursive_mode env u n st) = some false ∧
    Option.map LoopSt.approvalCount (stateOf (handle_recursive_mode env u n st)) =
      some st.approvalCount ∧
    Option.map LoopSt.execCount (stateOf (handle_recursive_mode env u n st)) =
      some st.execCount ∧
    Option.map LoopSt.netCount (stateOf (handle_recursive_mode env u n st)) =
      some (st.netCount + n) ∧
    Option.map LoopSt.events (stateOf (handle_recursive_mode env u n st)) =
      some (st.events ++ List.replicate n (Event.completionCall (directivePrompt u))) := by
  obtain ⟨st', hrun, hn, ha, he, hev⟩ := run_nomarkers env u n st m h1 h2 h3 hnet
  rw [hrun]
  simp [haltedOf, stateOf, hn, ha, he, hev]

/-- Marker-free assistant reply, for the C10 witness. -/
def aC10 : Message :=
  { role := "assistant".data, content := ("I am still investigating the task").data }

/-- Oracle environment for the C10 witness: every reply is marker-free. -/
def envC10 : Env :=
  { net := fun _ => NetOutcome.reply [aC10]
    confirm := fun _ => false
    comment := fun _ => []
    exec := fun _ => ExecOutcome.spawnErr [] }

/-- Loop state whose latest message is marker-free, for the C10 witness. -/
def stC10 : LoopSt :=
  { sys :=
      { convo :=
          { model := MODEL
            messages := [{ role := "assistant".data, content := ("hello").data }] }
        transcript := none }
    netCount := 0, approvalCount := 0, commentCount := 0, execCount := 0, events := [] }

/-- Witness for C10: two marker-free iterations leave the loop running with
exactly two directive-request calls logged and no approval or execution. -/
theorem no_marker_reply_keeps_asking_witness :
    haltedOf (handle_recursive_mode envC10 ("t".data) 2 stC10) = some false ∧
    Option.map LoopSt.approvalCount
      (stateOf (handle_recursive_mode envC10 ("t".data) 2 stC10)) = some 0 ∧
    Option.map LoopSt.events (stateOf (handle_recursive_mode envC10 ("t".data) 2 stC10)) =
      some (List.replicate 2 (Event.completionCall (directivePrompt ("t".data)))) := by
  have h := no_marker_reply_keeps_asking envC10 ("t".data) stC10 _ 2 rfl
    (by decide) (by decide)
    (fun k hk => ⟨aC10, [], rfl, by decide, by decide⟩)
  exact ⟨h.1, h.2.1, h.2.2.2.2⟩
